import Mathlib

/-!
# Verification of the rpicam_scope capture core

Shallow embedding of `src/microscope/microscope_control.py` and the
duration/capture logic of `src/microscope/controlGUI.py`.

Modelling conventions:
* Python strings are `List Char` (`Str`); `str s` injects a Lean string
  literal.
* External side effects are recorded as an explicit `Event` trace:
  `Event.runSync cmd` is `subprocess.run(cmd)` (launch and block until
  exit), `Event.spawn cmd` is `subprocess.Popen(cmd)` (launch without
  waiting), `Event.terminate`/`Event.wait` are `Popen.terminate()` /
  `Popen.wait()` on the preview process, and `Event.remove p` would be a
  file deletion (the source never deletes files, so it is never emitted).
  Diagnostic `print` calls are not modelled as events.
* A raised-and-uncaught-in-the-method Python exception is the `exc` field
  of a `PyResult` (`typeError`, `valueError`, `nameError` name the Python
  exception class).
* Numeric command-line arguments produced by `str(...)` of an `int` are
  rendered with `intRepr` (decimal, as Python does); arguments produced by
  `str(...)` of a `float` are kept symbolically as `Arg.fnum q` with the
  float value modelled as a rational.
-/

namespace Rpicam

/-- Python strings are modelled as lists of characters. -/
abbrev Str := List Char

/-- Inject a Lean string literal as a modelled Python string. -/
def str (s : String) : Str := s.data

/-- The whitespace characters stripped by Python `str.strip()` (default). -/
def pyIsSpace (c : Char) : Bool :=
  c == ' ' || c == '\t' || c == '\n' || c == '\r' || c == '\x0b' || c == '\x0c'

/-- Python `str.strip()`: remove leading and trailing whitespace. -/
def pyStrip (l : Str) : Str :=
  ((l.dropWhile pyIsSpace).reverse.dropWhile pyIsSpace).reverse

/-- Python `s.split(sep)` for a single-character separator `sep`:
`"" .split(sep) = [""]`, and every occurrence of `sep` starts a new field. -/
def pySplit (sep : Char) : Str → List Str
  | [] => [[]]
  | c :: rest =>
    let r := pySplit sep rest
    if c = sep then [] :: r
    else (c :: r.headD []) :: r.tail

/-- Value of a decimal digit character, `none` on a non-digit. -/
def digitVal (c : Char) : Option ℕ :=
  if c.isDigit then some (c.toNat - 48) else none

/-- Digit tail of Python `int(str)` parsing: after the first digit, digits
may be separated by single underscores (`"1_0"` parses, `"1__0"`, `"1_"`
do not). The accumulator holds the value parsed so far. -/
def pyIntDigits : Str → ℕ → Option ℕ
  | [], acc => some acc
  | c :: rest, acc =>
    if c = '_' then
      match rest with
      | [] => none
      | c2 :: rest2 =>
        match digitVal c2 with
        | some d => pyIntDigits rest2 (acc * 10 + d)
        | none => none
    else
      match digitVal c with
      | some d => pyIntDigits rest (acc * 10 + d)
      | none => none

/-- Unsigned part of Python `int(str)`: a nonempty digit string, not
starting with an underscore. -/
def pyIntNat : Str → Option ℕ
  | [] => none
  | c :: rest =>
    if c = '_' then none
    else
      match digitVal c with
      | some d => pyIntDigits rest d
      | none => none

/-- Python `int(str)`: strip whitespace, optional sign, decimal digits
(with legal underscores).  `none` models the `ValueError` raised on
malformed input. -/
def pyInt (s : Str) : Option ℤ :=
  match pyStrip s with
  | [] => none
  | c :: rest =>
    if c = '+' then (pyIntNat rest).map Int.ofNat
    else if c = '-' then (pyIntNat rest).map (fun n => -(n : ℤ))
    else (pyIntNat (c :: rest)).map Int.ofNat

/-- Python `in` on strings: substring containment. -/
def pyIn (needle : Str) : Str → Bool
  | [] => needle.isPrefixOf ([] : Str)
  | c :: rest => needle.isPrefixOf (c :: rest) || pyIn needle rest

/-- Decimal digit character for a value below ten. -/
def digitChar (k : ℕ) : Char := Char.ofNat (48 + k)

/-- Fuel-driven decimal rendering of a natural number (structural, so that
it evaluates inside `decide`). -/
def natReprAux : ℕ → ℕ → Str
  | 0, _ => []
  | fuel + 1, n =>
    if n < 10 then [digitChar n]
    else natReprAux fuel (n / 10) ++ [digitChar (n % 10)]

/-- Python `str(n)` for a non-negative `int`. -/
def natRepr (n : ℕ) : Str := natReprAux (n + 1) n

/-- Python `str(i)` for an `int`. -/
def intRepr (i : ℤ) : Str :=
  if i < 0 then '-' :: natRepr i.natAbs else natRepr i.toNat

/-- `os.path.join(a, b)` with POSIX separators. -/
def pathJoin (a b : Str) : Str :=
  if b.head? = some '/' then b
  else if a = [] then b
  else if a.getLast? = some '/' then a ++ b
  else a ++ '/' :: b

/-- Fuel-driven core of Python `str.replace`: replace each leftmost,
non-overlapping occurrence of `pat` by `rep`. -/
def pyReplaceAux (pat rep : Str) : ℕ → Str → Str
  | 0, s => s
  | fuel + 1, s =>
    if pat ≠ [] ∧ pat.isPrefixOf s then
      rep ++ pyReplaceAux pat rep fuel (s.drop pat.length)
    else
      match s with
      | [] => []
      | c :: rest => c :: pyReplaceAux pat rep fuel rest

/-- Python `s.replace(pat, rep)` for a nonempty `pat` (the source only
calls it with `".h264"`; the empty-pattern case never occurs and is
modelled as the identity). -/
def pyReplace (s pat rep : Str) : Str := pyReplaceAux pat rep (s.length + 1) s

/-- Standard decimal value of a digit string (specification-side helper
used to state what `pyInt` computes on all-digit input). -/
def decVal (l : Str) : ℕ :=
  l.foldl (fun a ch => a * 10 + (ch.toNat - 48)) 0

/-- A command-line argument: either a literal string or the `str(...)`
rendering of a Python float (kept symbolically as a rational). -/
inductive Arg
  | lit (v : Str)
  | fnum (v : ℚ)
deriving DecidableEq

/-- One observable external side effect of the controller. -/
inductive Event
  | runSync (cmd : List Arg)
  | spawn (cmd : List Arg)
  | terminate
  | wait
  | remove (path : Str)
deriving DecidableEq

/-- The Python exception class escaping a method call, if any. -/
inductive PyExc
  | typeError
  | valueError
  | nameError
deriving DecidableEq

/-- Result of running one controller operation: the trace of external
side effects it performed, and the exception it raised (if any). -/
structure PyResult where
  events : List Event
  exc : Option PyExc
deriving DecidableEq

/-- One entry of `Microscope.valid_resolutions`. -/
structure ResDetails where
  resolution : Str
  max_fps : ℚ
  aspect : Str
deriving DecidableEq

/-- `self.valid_resolutions` from `Microscope.__init__`, as the lookup
function `dict.get` gives (`none` models Python `None` on a missing key).
The float fps ceilings 120.05, 50.03, 40.01 and 10.00 are written as
`mkRat n 100` so that they evaluate inside the kernel. -/
def valid_resolutions (key : Str) : Option ResDetails :=
  if key = str "1" then some ⟨str "1332x990", mkRat 12005 100, str "4:3"⟩
  else if key = str "2" then some ⟨str "2028x1080", mkRat 5003 100, str "16:9"⟩
  else if key = str "3" then some ⟨str "2028x1520", mkRat 4001 100, str "4:3"⟩
  else if key = str "4" then some ⟨str "4056x3040", mkRat 1000 100, str "4:3"⟩
  else none

/-- `resolution.split('x')[0]` (the width field). Indexing is total here
because every configured resolution string contains an `'x'`. -/
def res_width (resolution : Str) : Str := (pySplit 'x' resolution).headD []

/-- `resolution.split('x')[1]` (the height field). -/
def res_height (resolution : Str) : Str := (pySplit 'x' resolution).getD 1 []

/-- The mutable state of a `Microscope` instance. `pi_model` and
`desktop_path` are set in `__init__` and never written again;
`preview_process` is the nullable `subprocess.Popen` handle (its identity
does not matter, only whether it is present). -/
structure Microscope where
  pi_model : Str
  desktop_path : Str
  preview_process : Option Unit
deriving DecidableEq

/-- `Microscope.get_pi_model`: read `/proc/device-tree/model` and strip
it; if the file is missing (`FileNotFoundError`), return `"Unknown"`.
The file system read is modelled by the `contents` argument (`none` =
file not found). -/
def get_pi_model (contents : Option Str) : Str :=
  match contents with
  | some model => pyStrip model
  | none => str "Unknown"

/-- `Microscope.__init__`: resolve the model once; no preview running.
`desktop` stands for `os.path.join(os.path.expanduser('~'), 'Desktop')`,
which depends on the environment. -/
def Microscope.init (contents : Option Str) (desktop : Str) : Microscope :=
  { pi_model := get_pi_model contents
    desktop_path := desktop
    preview_process := none }

/-- `Microscope.start_preview`: look up the resolution (a missing key
gives Python `None`, and subscripting it raises `TypeError` before any
process is started), then `Popen` the `rpicam-hello` command and record
the handle. -/
def start_preview (m : Microscope) (res_key : Str) : Microscope × PyResult :=
  match valid_resolutions res_key with
  | none => (m, ⟨[], some PyExc.typeError⟩)
  | some rd =>
    let command : List Arg :=
      [Arg.lit (str "rpicam-hello"),
       Arg.lit (str "--timeout"), Arg.lit (str "0"),
       Arg.lit (str "--width"), Arg.lit (res_width rd.resolution),
       Arg.lit (str "--height"), Arg.lit (res_height rd.resolution)]
    ({ m with preview_process := some () }, ⟨[Event.spawn command], none⟩)

/-- `Microscope.stop_preview`: if a preview process handle is present,
terminate it, block until it exits, and clear the handle; otherwise do
nothing.  It cannot raise, so it returns only its event trace. -/
def stop_preview (m : Microscope) : Microscope × List Event :=
  match m.preview_process with
  | some _ => ({ m with preview_process := none }, [Event.terminate, Event.wait])
  | none => (m, [])

/-- `Microscope.capture_image`: look up the resolution (missing key:
`TypeError` before any process), then run `rpicam-still` synchronously.
`os.path.join` with a single argument is the identity. -/
def capture_image (_m : Microscope) (resolution filename : Str) : PyResult :=
  match valid_resolutions resolution with
  | none => ⟨[], some PyExc.typeError⟩
  | some rd =>
    let output_path := filename ++ str ".jpg"
    let command : List Arg :=
      [Arg.lit (str "rpicam-still"),
       Arg.lit (str "-o"), Arg.lit output_path,
       Arg.lit (str "--width"), Arg.lit (res_width rd.resolution),
       Arg.lit (str "--height"), Arg.lit (res_height rd.resolution)]
    ⟨[Event.runSync command], none⟩

/-- `Microscope.capture_timelapse`: look up the resolution (missing key:
`TypeError`), run `rpicam-still` in timelapse mode synchronously, then
execute `print(f'... {save_folder}')` — the name `save_folder` is not
defined anywhere in `microscope_control.py`, so the method always ends by
raising `NameError` after the external tool has exited. -/
def capture_timelapse (_m : Microscope) (resolution : Str) (interval duration : ℤ)
    (filename : Str) : PyResult :=
  match valid_resolutions resolution with
  | none => ⟨[], some PyExc.typeError⟩
  | some rd =>
    let output_path := filename ++ str "_%04d.jpg"
    let command : List Arg :=
      [Arg.lit (str "rpicam-still"),
       Arg.lit (str "-t"), Arg.lit (intRepr (duration * 1000)),
       Arg.lit (str "--timelapse"), Arg.lit (intRepr (interval * 1000)),
       Arg.lit (str "-o"), Arg.lit output_path,
       Arg.lit (str "--width"), Arg.lit (res_width rd.resolution),
       Arg.lit (str "--height"), Arg.lit (res_height rd.resolution)]
    ⟨[Event.runSync command], some PyExc.nameError⟩

/-- `Microscope.get_video_extension`: `.h264` unless the model string
contains `'Raspberry Pi 5'`. -/
def get_video_extension (m : Microscope) : Str :=
  if !(pyIn (str "Raspberry Pi 5") m.pi_model) then str ".h264" else str ".mp4"

/-- `Microscope.get_video_command`: the `rpicam-vid` invocation for the
Raspberry Pi 4 branch (with `--save-pts`), the Raspberry Pi 5 branch, or
Python `None` when the model matches neither branch (the method falls off
its end). -/
def get_video_command (m : Microscope) (resolution : Str) (framerate : ℚ)
    (duration : ℤ) (output_path : Str) : Option (List Arg) :=
  if pyIn (str "Raspberry Pi 4") m.pi_model then
    let timestamp_path := pathJoin m.desktop_path (str "timestamps.txt")
    some [Arg.lit (str "rpicam-vid"),
          Arg.lit (str "--framerate"), Arg.fnum framerate,
          Arg.lit (str "--width"), Arg.lit (res_width resolution),
          Arg.lit (str "--height"), Arg.lit (res_height resolution),
          Arg.lit (str "--save-pts"), Arg.lit timestamp_path,
          Arg.lit (str "-o"), Arg.lit output_path,
          Arg.lit (str "-t"), Arg.lit (intRepr duration ++ str "s")]
  else if pyIn (str "Raspberry Pi 5") m.pi_model then
    some [Arg.lit (str "rpicam-vid"),
          Arg.lit (str "-t"), Arg.lit (intRepr duration ++ str "s"),
          Arg.lit (str "-o"), Arg.lit output_path,
          Arg.lit (str "--width"), Arg.lit (res_width resolution),
          Arg.lit (str "--height"), Arg.lit (res_height resolution),
          Arg.lit (str "--framerate"), Arg.fnum framerate]
  else none

/-- `Microscope.convert_to_mkv`: `Popen` the `mkvmerge` command and do
not wait for it (fire-and-forget). -/
def convert_to_mkv (input_h264_path output_mkv_path timestamps_path : Str) :
    List Event :=
  [Event.spawn
    [Arg.lit (str "mkvmerge"),
     Arg.lit (str "-o"), Arg.lit output_mkv_path,
     Arg.lit (str "--timecodes"), Arg.lit (str "0:" ++ timestamps_path),
     Arg.lit input_h264_path]]

/-- `Microscope.record_video`: look up the resolution (missing key:
`TypeError` from subscripting `None`), clamp the framerate
(`framerate is None or float(framerate) > max_fps` sets it to `max_fps`),
build the output path from the model-derived extension, run the video
command (`subprocess.run(None)` raises `TypeError` when
`get_video_command` returned `None`), then on a `'Raspberry Pi 4'` model
launch the timestamp merge. -/
def record_video (m : Microscope) (resolution : Str) (framerate : Option ℚ)
    (duration : ℤ) (filename : Str) : PyResult :=
  match valid_resolutions resolution with
  | none => ⟨[], some PyExc.typeError⟩
  | some rd =>
    let fr : ℚ :=
      match framerate with
      | none => rd.max_fps
      | some f => if f > rd.max_fps then rd.max_fps else f
    let output_path := filename ++ get_video_extension m
    match get_video_command m rd.resolution fr duration output_path with
    | none => ⟨[], some PyExc.typeError⟩
    | some command =>
      if pyIn (str "Raspberry Pi 4") m.pi_model then
        let input_path := output_path
        let out_mkv := pyReplace input_path (str ".h264") (str ".mkv")
        let timestamps_path := pathJoin m.desktop_path (str "timestamps.txt")
        ⟨Event.runSync command :: convert_to_mkv input_path out_mkv timestamps_path,
         none⟩
      else ⟨[Event.runSync command], none⟩

/-- `ControlGUI.parse_duration`: split on `':'`; exactly three fields are
converted with `int` (a `ValueError` from `int` yields `None`), any other
field count yields `None`. -/
def parse_duration (duration_text : Str) : Option ℤ :=
  match pySplit ':' duration_text with
  | [a, b, c] =>
    match pyInt a, pyInt b, pyInt c with
    | some hh, some mm, some ss => some (hh * 3600 + mm * 60 + ss)
    | _, _, _ => none
  | _ => none

/-- The capture mode selected in the GUI mode combo box (`else` in the
dispatch is the image branch). -/
inductive Mode
  | image
  | video
  | timelapse
deriving DecidableEq

/-- The state of a `ControlGUI` instance relevant to the capture logic. -/
structure ControlGUI where
  preview_running : Bool
  microscope : Microscope
  save_folder : Str
deriving DecidableEq

/-- `ControlGUI.capture`: stop any running preview first, then parse the
duration (the GUI formats the three duration spin boxes into
`duration_text`; an unparseable duration raises
`ValueError("Invalid duration format...")` before any capture tool is
launched), then dispatch on the mode.  Exceptions raised by the dispatch
are caught by the surrounding `try`/`except` and reported; they are
returned here as the `exc` field. -/
def ControlGUI.capture (g : ControlGUI) (mode : Mode) (resolution filename : Str)
    (framerate : Option ℚ) (duration_text : Str) (interval : ℤ) :
    ControlGUI × PyResult :=
  let stopped := stop_preview g.microscope
  let g2 : ControlGUI :=
    { g with microscope := stopped.1, preview_running := false }
  match parse_duration duration_text with
  | none => (g2, ⟨stopped.2, some PyExc.valueError⟩)
  | some duration =>
    let full_filename := pathJoin g2.save_folder filename
    match mode with
    | Mode.video =>
      let r := record_video g2.microscope resolution framerate duration full_filename
      (g2, ⟨stopped.2 ++ r.events, r.exc⟩)
    | Mode.timelapse =>
      let r := capture_timelapse g2.microscope resolution interval duration full_filename
      (g2, ⟨stopped.2 ++ r.events, r.exc⟩)
    | Mode.image =>
      let r := capture_image g2.microscope resolution full_filename
      (g2, ⟨stopped.2 ++ r.events, r.exc⟩)

/-- Does the trace contain an invocation of the timestamp-merge tool? -/
def isMergeEvent : Event → Bool
  | Event.spawn (Arg.lit tool :: _) => tool = str "mkvmerge"
  | _ => false

/-- Was the timestamp merge launched during the operation? -/
def mergeInvoked (r : PyResult) : Bool := r.events.any isMergeEvent

/-- Is the event a blocking wait on a previously launched process? -/
def isWaitEvent : Event → Bool
  | Event.wait => true
  | _ => false

/-- Is the event a file deletion? -/
def isRemoveEvent : Event → Bool
  | Event.remove _ => true
  | _ => false

/-- Is the event part of stopping the preview process (terminate/wait)? -/
def isStopEvent : Event → Bool
  | Event.terminate => true
  | Event.wait => true
  | _ => false

/-- Does the event launch an external process? -/
def isLaunchEvent : Event → Bool
  | Event.runSync _ => true
  | Event.spawn _ => true
  | _ => false

/-- Sample desktop path used for concrete evaluations. -/
def sampleDesktop : Str := str "/home/pi/Desktop"

/-- A microscope whose model string was read successfully. -/
def micOf (model : String) : Microscope :=
  ⟨str model, sampleDesktop, none⟩

/-- A microscope on a host whose identification file is missing. -/
def micUnknown : Microscope := Microscope.init none sampleDesktop

/-- A Raspberry Pi 4 host. -/
def mic4 : Microscope := micOf "Raspberry Pi 4 Model B Rev 1.1"

/-- A Raspberry Pi 5 host. -/
def mic5 : Microscope := micOf "Raspberry Pi 5 Model B Rev 1.0"

/-- A contrived model string containing both generation markers, used to
probe the device-profile derivation rules. -/
def mic45 : Microscope := micOf "Raspberry Pi 4 and Raspberry Pi 5"

/-! ## Helper lemmas about the Python string primitives -/

theorem pySplit_ne_nil (sep : Char) (l : Str) : pySplit sep l ≠ [] := by
  cases l with
  | nil => simp [pySplit]
  | cons c rest =>
    simp only [pySplit]
    split <;> simp

theorem pySplit_no_sep (sep : Char) (l : Str) (h : ∀ c ∈ l, c ≠ sep) :
    pySplit sep l = [l] := by
  induction l with
  | nil => rfl
  | cons c rest ih =>
    have hc : c ≠ sep := h c (List.mem_cons_self c rest)
    have hr : pySplit sep rest = [rest] :=
      ih fun x hx => h x (List.mem_cons_of_mem c hx)
    simp [pySplit, hc, hr]

theorem pySplit_append (sep : Char) (a rest : Str) (h : ∀ c ∈ a, c ≠ sep) :
    pySplit sep (a ++ sep :: rest) = a :: pySplit sep rest := by
  induction a with
  | nil => simp [pySplit]
  | cons c a2 ih =>
    have hc : c ≠ sep := h c (List.mem_cons_self c a2)
    have ih2 : pySplit sep (a2 ++ sep :: rest) = a2 :: pySplit sep rest :=
      ih fun x hx => h x (List.mem_cons_of_mem c hx)
    simp [pySplit, hc, ih2]

theorem digit_no_special (c : Char) (h : c.isDigit = true) :
    c ≠ '_' ∧ c ≠ '+' ∧ c ≠ '-' ∧ c ≠ ':' ∧ pyIsSpace c = false := by
  refine ⟨?_, ?_, ?_, ?_, ?_⟩
  · rintro rfl; exact absurd h (by decide)
  · rintro rfl; exact absurd h (by decide)
  · rintro rfl; exact absurd h (by decide)
  · rintro rfl; exact absurd h (by decide)
  · cases hc : pyIsSpace c with
    | false => rfl
    | true =>
      exfalso
      simp only [pyIsSpace, Bool.or_eq_true, beq_iff_eq] at hc
      rcases hc with ((((rfl | rfl) | rfl) | rfl) | rfl) | rfl <;>
        exact absurd h (by decide)

theorem dropWhile_eq_self_of (p : Char → Bool) (l : Str)
    (h : ∀ c ∈ l, p c = false) : l.dropWhile p = l := by
  cases l with
  | nil => rfl
  | cons c rest => simp [List.dropWhile, h c (List.mem_cons_self c rest)]

theorem pyStrip_eq_self (l : Str) (h : ∀ c ∈ l, pyIsSpace c = false) :
    pyStrip l = l := by
  unfold pyStrip
  rw [dropWhile_eq_self_of _ _ h,
    dropWhile_eq_self_of _ _ fun c hc => h c (List.mem_reverse.mp hc),
    List.reverse_reverse]

theorem pyIntDigits_all_digits (l : Str) (h : ∀ c ∈ l, c.isDigit = true) :
    ∀ acc : ℕ,
      pyIntDigits l acc =
        some (l.foldl (fun a ch => a * 10 + (ch.toNat - 48)) acc) := by
  induction l with
  | nil => intro acc; rfl
  | cons c rest ih =>
    intro acc
    have hc := h c (List.mem_cons_self c rest)
    have hne := (digit_no_special c hc).1
    have ih2 := ih fun x hx => h x (List.mem_cons_of_mem c hx)
    rw [pyIntDigits.eq_def]
    simp [hne, digitVal, hc, ih2 (acc * 10 + (c.toNat - 48))]

theorem pyInt_all_digits (l : Str) (hne : l ≠ [])
    (h : ∀ c ∈ l, c.isDigit = true) : pyInt l = some (decVal l : ℤ) := by
  have hstrip : pyStrip l = l :=
    pyStrip_eq_self l fun c hc => (digit_no_special c (h c hc)).2.2.2.2
  cases l with
  | nil => exact absurd rfl hne
  | cons c rest =>
    have hc := h c (List.mem_cons_self c rest)
    have hfacts := digit_no_special c hc
    have hrest := pyIntDigits_all_digits rest
      (fun x hx => h x (List.mem_cons_of_mem c hx)) (c.toNat - 48)
    simp only [pyInt, hstrip, hfacts.2.1, hfacts.2.2.1, if_false,
      pyIntNat, hfacts.1, digitVal, hc, if_true, hrest, Option.map_some]
    simp [decVal]

/-! ## Helper lemmas about the capture operations -/

theorem record_video_eq (m : Microscope) (res : Str) (rd : ResDetails)
    (fr : Option ℚ) (dur : ℤ) (fn : Str)
    (h : valid_resolutions res = some rd) :
    record_video m res fr dur fn =
      (let sent : ℚ :=
        match fr with
        | none => rd.max_fps
        | some f => if f > rd.max_fps then rd.max_fps else f
      let path := fn ++ get_video_extension m
      match get_video_command m rd.resolution sent dur path with
      | none => ⟨[], some PyExc.typeError⟩
      | some command =>
        if pyIn (str "Raspberry Pi 4") m.pi_model then
          ⟨Event.runSync command ::
            convert_to_mkv path (pyReplace path (str ".h264") (str ".mkv"))
              (pathJoin m.desktop_path (str "timestamps.txt")), none⟩
        else ⟨[Event.runSync command], none⟩) := by
  unfold record_video
  rw [h]

theorem fnum_mem_video_cmd (m : Microscope) (resolution : Str) (sent : ℚ)
    (dur : ℤ) (path : Str) (cmd : List Arg)
    (h : get_video_command m resolution sent dur path = some cmd) :
    Arg.fnum sent ∈ cmd ∧ ∀ q, Arg.fnum q ∈ cmd → q = sent := by
  unfold get_video_command at h
  split_ifs at h with h4 h5 <;> rw [Option.some_inj] at h <;> subst h <;> simp

theorem runSync_mem_record_video_none (m : Microscope) (sel : Str)
    (rd : ResDetails) (dur : ℤ) (fn : Str) (cmd : List Arg)
    (h : valid_resolutions sel = some rd)
    (hc : Event.runSync cmd ∈ (record_video m sel none dur fn).events) :
    get_video_command m rd.resolution rd.max_fps dur
      (fn ++ get_video_extension m) = some cmd := by
  rw [record_video_eq m sel rd none dur fn h] at hc
  dsimp only at hc
  cases hg : get_video_command m rd.resolution rd.max_fps dur
      (fn ++ get_video_extension m) with
  | none => rw [hg] at hc; simp at hc
  | some c =>
    rw [hg] at hc
    split at hc <;> (try split at hc) <;> simp_all [convert_to_mkv]

theorem runSync_mem_record_video_some (m : Microscope) (sel : Str)
    (rd : ResDetails) (f : ℚ) (dur : ℤ) (fn : Str) (cmd : List Arg)
    (h : valid_resolutions sel = some rd)
    (hc : Event.runSync cmd ∈ (record_video m sel (some f) dur fn).events) :
    get_video_command m rd.resolution
      (if f > rd.max_fps then rd.max_fps else f) dur
      (fn ++ get_video_extension m) = some cmd := by
  rw [record_video_eq m sel rd (some f) dur fn h] at hc
  dsimp only at hc
  cases hg : get_video_command m rd.resolution
      (if f > rd.max_fps then rd.max_fps else f) dur
      (fn ++ get_video_extension m) with
  | none => rw [hg] at hc; simp at hc
  | some c =>
    rw [hg] at hc
    split at hc <;> (try split at hc) <;> simp_all [convert_to_mkv]

theorem record_video_stopfree (m : Microscope) (res : Str) (fr : Option ℚ)
    (dur : ℤ) (fn : Str) :
    (record_video m res fr dur fn).events.any isStopEvent = false := by
  cases hv : valid_resolutions res with
  | none => simp [record_video, hv]
  | some rd =>
    rw [record_video_eq m res rd fr dur fn hv]
    dsimp only
    split <;> (try split) <;>
      simp [convert_to_mkv, isStopEvent]

theorem capture_image_stopfree (m : Microscope) (res fn : Str) :
    (capture_image m res fn).events.any isStopEvent = false := by
  unfold capture_image
  split <;> simp [isStopEvent]

theorem capture_timelapse_stopfree (m : Microscope) (res : Str) (iv dur : ℤ)
    (fn : Str) :
    (capture_timelapse m res iv dur fn).events.any isStopEvent = false := by
  unfold capture_timelapse
  split <;> simp [isStopEvent]

/-! ## Claims -/

/-- Claim C1. The first half of the claim holds: a failed read of the
identification source resolves the model to the sentinel `"Unknown"`, and
the derived extension is `".h264"` with no merge.  The second half fails
on the code: for a model containing neither generation marker,
`get_video_command` falls off its end and returns Python `None`, so
`subprocess.run(None)` raises `TypeError` — no video-capture command is
built or run.  This contradicts `get_video_command`'s own docstring
(`Return: list`) and the spec's "capture must still be attempted with
safe defaults", so the code, not the claim, is wrong. -/
theorem C1_unknown_model_video_crash :
    get_pi_model none = str "Unknown" ∧
    micUnknown.pi_model = str "Unknown" ∧
    get_video_extension micUnknown = str ".h264" ∧
    get_video_command micUnknown (str "1332x990") (mkRat 12005 100) 10
      (str "vid.h264") = none ∧
    record_video micUnknown (str "1") none 10 (str "vid") =
      ⟨[], some PyExc.typeError⟩ := by
  refine ⟨by decide, by decide, by decide, by decide, by decide⟩

/-- Claim C2, counterexample. A model string containing both generation
markers falsifies the claim as stated: it contains the newest-generation
marker `"Raspberry Pi 5"`, yet a timestamp merge is performed (the merge
condition in `record_video` tests only for `"Raspberry Pi 4"`). -/
theorem C2_counterexample :
    pyIn (str "Raspberry Pi 5") mic45.pi_model = true ∧
    mergeInvoked (record_video mic45 (str "1") none 10 (str "vid")) = true := by
  refine ⟨by decide, by decide⟩

/-- Claim C2, amended. The extension is `".mp4"` exactly when the model
contains the newest-generation marker, and the timestamp merge is
performed exactly when the model contains the second-newest-generation
marker — the two substring tests are independent, so a (contrived) model
string containing both markers gets `.mp4` and a merge.  For every model
containing neither marker the extension is `".h264"` and no merge is
performed. -/
theorem C2_device_profile (m : Microscope) (sel : Str) (rd : ResDetails)
    (fr : Option ℚ) (dur : ℤ) (fn : Str)
    (h : valid_resolutions sel = some rd) :
    (pyIn (str "Raspberry Pi 5") m.pi_model = true →
      get_video_extension m = str ".mp4") ∧
    (pyIn (str "Raspberry Pi 5") m.pi_model = false →
      get_video_extension m = str ".h264") ∧
    (pyIn (str "Raspberry Pi 4") m.pi_model = true →
      mergeInvoked (record_video m sel fr dur fn) = true) ∧
    (pyIn (str "Raspberry Pi 4") m.pi_model = false →
      mergeInvoked (record_video m sel fr dur fn) = false) := by
  refine ⟨fun h5 => ?_, fun h5 => ?_, fun h4 => ?_, fun h4 => ?_⟩
  · simp [get_video_extension, h5]
  · simp [get_video_extension, h5]
  · rw [record_video_eq m sel rd fr dur fn h]
    dsimp only
    simp [get_video_command, h4, mergeInvoked, convert_to_mkv, isMergeEvent]
  · cases h5 : pyIn (str "Raspberry Pi 5") m.pi_model with
    | false =>
      rw [record_video_eq m sel rd fr dur fn h]
      dsimp only
      simp [get_video_command, h4, h5, mergeInvoked]
    | true =>
      rw [record_video_eq m sel rd fr dur fn h]
      dsimp only
      simp [get_video_command, h4, h5, mergeInvoked, isMergeEvent]

/-- Claim C2, witness for the amended theorem: on a plain Raspberry Pi 4
model the extension is `".h264"` and the merge is launched. -/
theorem C2_witness :
    get_video_extension mic4 = str ".h264" ∧
    mergeInvoked (record_video mic4 (str "1") none 10 (str "vid")) = true :=
  ⟨(C2_device_profile mic4 (str "1") ⟨str "1332x990", mkRat 12005 100, str "4:3"⟩
      none 10 (str "vid") (by decide)).2.1 (by decide),
   (C2_device_profile mic4 (str "1") ⟨str "1332x990", mkRat 12005 100, str "4:3"⟩
      none 10 (str "vid") (by decide)).2.2.1 (by decide)⟩

/-- Claim C3. Whenever `record_video` launches a video-capture command,
that command carries exactly one framerate argument, and its value is:
the resolution's `max_fps` when the request had no framerate; `max_fps`
when the requested framerate exceeds `max_fps`; and the requested value
itself when it is at or below `max_fps`. -/
theorem C3_framerate_clamp (m : Microscope) (sel : Str) (rd : ResDetails)
    (fr : Option ℚ) (dur : ℤ) (fn : Str) (cmd : List Arg)
    (h : valid_resolutions sel = some rd)
    (hc : Event.runSync cmd ∈ (record_video m sel fr dur fn).events) :
    (fr = none → Arg.fnum rd.max_fps ∈ cmd) ∧
    (∀ f, fr = some f → rd.max_fps < f → Arg.fnum rd.max_fps ∈ cmd) ∧
    (∀ f, fr = some f → f ≤ rd.max_fps → Arg.fnum f ∈ cmd) ∧
    (∀ q q2, Arg.fnum q ∈ cmd → Arg.fnum q2 ∈ cmd → q = q2) := by
  cases fr with
  | none =>
    have hg : get_video_command m rd.resolution rd.max_fps dur
        (fn ++ get_video_extension m) = some cmd :=
      runSync_mem_record_video_none m sel rd dur fn cmd h hc
    obtain ⟨hmem, huniq⟩ :=
      fnum_mem_video_cmd m rd.resolution rd.max_fps dur _ cmd hg
    exact ⟨fun _ => hmem,
      fun f hf => absurd hf (by simp),
      fun f hf => absurd hf (by simp),
      fun q q2 hq hq2 => (huniq q hq).trans (huniq q2 hq2).symm⟩
  | some f =>
    by_cases hlt : rd.max_fps < f
    · have hg : get_video_command m rd.resolution rd.max_fps dur
          (fn ++ get_video_extension m) = some cmd := by
        have hg0 := runSync_mem_record_video_some m sel rd f dur fn cmd h hc
        rwa [if_pos hlt] at hg0
      obtain ⟨hmem, huniq⟩ :=
        fnum_mem_video_cmd m rd.resolution rd.max_fps dur _ cmd hg
      refine ⟨fun hno => absurd hno (by simp),
        fun f2 _ _ => hmem,
        fun f2 hf2 hle => ?_,
        fun q q2 hq hq2 => (huniq q hq).trans (huniq q2 hq2).symm⟩
      obtain rfl : f = f2 := Option.some_inj.mp hf2
      exact absurd hlt (not_lt.mpr hle)
    · have hg : get_video_command m rd.resolution f dur
          (fn ++ get_video_extension m) = some cmd := by
        have hg0 := runSync_mem_record_video_some m sel rd f dur fn cmd h hc
        rwa [if_neg hlt] at hg0
      obtain ⟨hmem, huniq⟩ :=
        fnum_mem_video_cmd m rd.resolution f dur _ cmd hg
      refine ⟨fun hno => absurd hno (by simp),
        fun f2 hf2 hlt2 => ?_,
        fun f2 hf2 _ => ?_,
        fun q q2 hq hq2 => (huniq q hq).trans (huniq q2 hq2).symm⟩
      · obtain rfl : f = f2 := Option.some_inj.mp hf2
        exact absurd hlt2 hlt
      · obtain rfl : f = f2 := Option.some_inj.mp hf2
        exact hmem

/-- Claim C3, witness: on a Raspberry Pi 5 host with preset `"1"`
(ceiling 120.05 fps), a requested framerate of 200 is replaced by the
ceiling in the launched command. -/
theorem C3_witness :
    Arg.fnum (mkRat 12005 100) ∈
      [Arg.lit (str "rpicam-vid"), Arg.lit (str "-t"), Arg.lit (str "10s"),
       Arg.lit (str "-o"), Arg.lit (str "v.mp4"),
       Arg.lit (str "--width"), Arg.lit (str "1332"),
       Arg.lit (str "--height"), Arg.lit (str "990"),
       Arg.lit (str "--framerate"), Arg.fnum (mkRat 12005 100)] :=
  (C3_framerate_clamp mic5 (str "1")
      ⟨str "1332x990", mkRat 12005 100, str "4:3"⟩ (some 200) 10 (str "v")
      [Arg.lit (str "rpicam-vid"), Arg.lit (str "-t"), Arg.lit (str "10s"),
       Arg.lit (str "-o"), Arg.lit (str "v.mp4"),
       Arg.lit (str "--width"), Arg.lit (str "1332"),
       Arg.lit (str "--height"), Arg.lit (str "990"),
       Arg.lit (str "--framerate"), Arg.fnum (mkRat 12005 100)]
      (by decide) (by decide)).2.1 200 rfl (by decide)

/-- Claim C4. The four configured presets resolve to exactly the
configured values, and any other selector makes every operation fail
before launching a process: `dict.get` returns `None` and subscripting it
raises `TypeError` (the spec's `UnknownResolution`), with an empty event
trace. -/
theorem C4_resolution_presets :
    (valid_resolutions (str "1") =
        some ⟨str "1332x990", mkRat 12005 100, str "4:3"⟩ ∧
      valid_resolutions (str "2") =
        some ⟨str "2028x1080", mkRat 5003 100, str "16:9"⟩ ∧
      valid_resolutions (str "3") =
        some ⟨str "2028x1520", mkRat 4001 100, str "4:3"⟩ ∧
      valid_resolutions (str "4") =
        some ⟨str "4056x3040", mkRat 1000 100, str "4:3"⟩) ∧
    ∀ sel : Str, valid_resolutions sel = none →
      (∀ (m : Microscope) (fn : Str),
        capture_image m sel fn = ⟨[], some PyExc.typeError⟩) ∧
      (∀ (m : Microscope) (iv dur : ℤ) (fn : Str),
        capture_timelapse m sel iv dur fn = ⟨[], some PyExc.typeError⟩) ∧
      (∀ (m : Microscope) (fr : Option ℚ) (dur : ℤ) (fn : Str),
        record_video m sel fr dur fn = ⟨[], some PyExc.typeError⟩) ∧
      (∀ m : Microscope,
        start_preview m sel = (m, ⟨[], some PyExc.typeError⟩)) := by
  refine ⟨⟨by decide, by decide, by decide, by decide⟩, ?_⟩
  intro sel hnone
  refine ⟨fun m fn => ?_, fun m iv dur fn => ?_, fun m fr dur fn => ?_,
    fun m => ?_⟩
  · simp [capture_image, hnone]
  · simp [capture_timelapse, hnone]
  · simp [record_video, hnone]
  · simp [start_preview, hnone]

/-- Claim C4, witness: selector `"9"` is rejected by image capture and
selector `"0"` by preview start, both without launching anything. -/
theorem C4_witness :
    capture_image micUnknown (str "9") (str "f") =
      ⟨[], some PyExc.typeError⟩ ∧
    start_preview micUnknown (str "0") =
      (micUnknown, ⟨[], some PyExc.typeError⟩) :=
  ⟨(C4_resolution_presets.2 (str "9") (by decide)).1 micUnknown (str "f"),
   (C4_resolution_presets.2 (str "0") (by decide)).2.2.2 micUnknown⟩

/-- Claim C5. Duration parsing: three all-digit colon-separated fields
`h:m:s` give `h*3600 + m*60 + s` seconds (`"01:02:03"` is 3723,
`"00:00:10"` is 10); any other field count, or a field `int` cannot
parse, gives `None` (the spec's `InvalidDuration`), and a capture with an
unparseable duration raises `ValueError` and launches no external
process. -/
theorem C5_duration_parsing :
    (∀ a b c : Str, a ≠ [] → b ≠ [] → c ≠ [] →
      (∀ ch ∈ a, ch.isDigit = true) → (∀ ch ∈ b, ch.isDigit = true) →
      (∀ ch ∈ c, ch.isDigit = true) →
      parse_duration (a ++ ':' :: b ++ ':' :: c) =
        some ((decVal a : ℤ) * 3600 + (decVal b : ℤ) * 60 + (decVal c : ℤ))) ∧
    parse_duration (str "01:02:03") = some 3723 ∧
    parse_duration (str "00:00:10") = some 10 ∧
    (∀ t : Str, (pySplit ':' t).length ≠ 3 → parse_duration t = none) ∧
    (∀ t a b c : Str, pySplit ':' t = [a, b, c] →
      pyInt a = none ∨ pyInt b = none ∨ pyInt c = none →
      parse_duration t = none) ∧
    (∀ (g : ControlGUI) (mode : Mode) (res fn : Str) (fr : Option ℚ)
        (dt : Str) (iv : ℤ),
      parse_duration dt = none →
        (ControlGUI.capture g mode res fn fr dt iv).2.exc =
          some PyExc.valueError ∧
        (ControlGUI.capture g mode res fn fr dt iv).2.events.any
          isLaunchEvent = false) := by
  refine ⟨?_, by decide, by decide, ?_, ?_, ?_⟩
  · intro a b c ha hb hc hda hdb hdc
    have hsa : ∀ x ∈ a, x ≠ ':' :=
      fun x hx => (digit_no_special x (hda x hx)).2.2.2.1
    have hsb : ∀ x ∈ b, x ≠ ':' :=
      fun x hx => (digit_no_special x (hdb x hx)).2.2.2.1
    have hsc : ∀ x ∈ c, x ≠ ':' :=
      fun x hx => (digit_no_special x (hdc x hx)).2.2.2.1
    have hsplit : pySplit ':' (a ++ ':' :: (b ++ ':' :: c)) = [a, b, c] := by
      rw [pySplit_append ':' a _ hsa, pySplit_append ':' b _ hsb,
        pySplit_no_sep ':' c hsc]
    simp [parse_duration, hsplit, pyInt_all_digits a ha hda,
      pyInt_all_digits b hb hdb, pyInt_all_digits c hc hdc]
  · intro t hlen
    cases hs : pySplit ':' t with
    | nil => simp [parse_duration, hs]
    | cons a r1 =>
      cases r1 with
      | nil => simp [parse_duration, hs]
      | cons b r2 =>
        cases r2 with
        | nil => simp [parse_duration, hs]
        | cons c r3 =>
          cases r3 with
          | nil => exact absurd (by rw [hs]; rfl) hlen
          | cons d r4 => simp [parse_duration, hs]
  · intro t a b c hs hnone
    rcases hnone with ha | hb | hc2
    · simp [parse_duration, hs, ha]
    · cases hpa : pyInt a <;> simp [parse_duration, hs, hpa, hb]
    · cases hpa : pyInt a <;> cases hpb : pyInt b <;>
        simp [parse_duration, hs, hpa, hpb, hc2]
  · intro g mode res fn fr dt iv hdt
    cases hp : g.microscope.preview_process with
    | none =>
      constructor <;>
        simp [ControlGUI.capture, stop_preview, hp, hdt, isLaunchEvent]
    | some u =>
      constructor <;>
        simp [ControlGUI.capture, stop_preview, hp, hdt, isLaunchEvent]

/-- Claim C5, witness: `"12:34:56"` parses to 45296 seconds via the
general digit-field theorem. -/
theorem C5_witness :
    parse_duration (str "12" ++ ':' :: str "34" ++ ':' :: str "56") =
      some 45296 := by
  have h := C5_duration_parsing.1 (str "12") (str "34") (str "56")
    (by decide) (by decide) (by decide) (by decide) (by decide) (by decide)
  rw [h]; decide

theorem capture_result (g : ControlGUI) (mode : Mode) (res fn : Str)
    (fr : Option ℚ) (dt : Str) (iv : ℤ) :
    (ControlGUI.capture g mode res fn fr dt iv).1 =
      { g with microscope := (stop_preview g.microscope).1,
               preview_running := false } ∧
    ∃ rest,
      (ControlGUI.capture g mode res fn fr dt iv).2.events =
        (stop_preview g.microscope).2 ++ rest ∧
      rest.any isStopEvent = false := by
  unfold ControlGUI.capture
  dsimp only
  cases hd : parse_duration dt with
  | none => exact ⟨rfl, ⟨[], by simp, rfl⟩⟩
  | some dur =>
    cases mode with
    | image => exact ⟨rfl, ⟨_, rfl, capture_image_stopfree _ _ _⟩⟩
    | video => exact ⟨rfl, ⟨_, rfl, record_video_stopfree _ _ _ _ _⟩⟩
    | timelapse => exact ⟨rfl, ⟨_, rfl, capture_timelapse_stopfree _ _ _ _ _⟩⟩

/-- Claim C6. Every capture invocation first performs the terminate/wait
pair on the preview process when one is active (and nothing when idle);
everything after that prefix launches processes but never stops/waits a
preview, and the controller ends with `preview_running = false` and a
cleared preview handle — preview and capture never overlap. -/
theorem C6_no_overlap (g : ControlGUI) (mode : Mode) (res fn : Str)
    (fr : Option ℚ) (dt : Str) (iv : ℤ) :
    (ControlGUI.capture g mode res fn fr dt iv).1.preview_running = false ∧
    (ControlGUI.capture g mode res fn fr dt iv).1.microscope.preview_process
      = none ∧
    ∃ rest,
      (ControlGUI.capture g mode res fn fr dt iv).2.events =
        (if g.microscope.preview_process.isSome then
          [Event.terminate, Event.wait] else []) ++ rest ∧
      rest.any isStopEvent = false := by
  obtain ⟨h1, rest, h2, h3⟩ := capture_result g mode res fn fr dt iv
  refine ⟨by rw [h1], ?_, rest, ?_, h3⟩
  · rw [h1]
    cases hp : g.microscope.preview_process <;> simp [stop_preview, hp]
  · rw [h2]
    cases hp : g.microscope.preview_process <;> simp [stop_preview, hp]

/-- Claim C7. `start_preview` then `stop_preview` clears the preview
handle (Idle) after a terminate/wait pair; `stop_preview` with no preview
running returns the state unchanged with no events (it cannot raise by
construction), and a second consecutive `stop_preview` is always such a
no-op. -/
theorem C7_preview_stop_idempotent :
    (∀ (m : Microscope) (sel : Str) (rd : ResDetails),
      valid_resolutions sel = some rd →
        (stop_preview (start_preview m sel).1).1.preview_process = none ∧
        (stop_preview (start_preview m sel).1).2 =
          [Event.terminate, Event.wait]) ∧
    (∀ m : Microscope, m.preview_process = none → stop_preview m = (m, [])) ∧
    (∀ m : Microscope,
      stop_preview (stop_preview m).1 = ((stop_preview m).1, [])) := by
  refine ⟨fun m sel rd h => ?_, fun m h => ?_, fun m => ?_⟩
  · constructor <;> simp [start_preview, h, stop_preview]
  · simp [stop_preview, h]
  · cases hp : m.preview_process <;> simp [stop_preview, hp]

/-- Claim C7, witness: a start/stop round trip on preset `"1"` ends Idle,
and stopping with no preview running is an exact no-op. -/
theorem C7_witness :
    (stop_preview (start_preview mic5 (str "1")).1).1.preview_process =
      none ∧
    stop_preview micUnknown = (micUnknown, []) :=
  ⟨(C7_preview_stop_idempotent.1 mic5 (str "1")
      ⟨str "1332x990", mkRat 12005 100, str "4:3"⟩ (by decide)).1,
   C7_preview_stop_idempotent.2.1 micUnknown (by decide)⟩

/-- Claim C8. For every valid selector, timelapse capture runs the
still-capture tool with `-t duration*1000`, `--timelapse interval*1000`
(milliseconds) and output path `outputBasePath ++ "_%04d.jpg"`. -/
theorem C8_timelapse_command (m : Microscope) (sel : Str) (rd : ResDetails)
    (iv dur : ℤ) (fn : Str) (h : valid_resolutions sel = some rd) :
    (capture_timelapse m sel iv dur fn).events =
      [Event.runSync
        [Arg.lit (str "rpicam-still"),
         Arg.lit (str "-t"), Arg.lit (intRepr (dur * 1000)),
         Arg.lit (str "--timelapse"), Arg.lit (intRepr (iv * 1000)),
         Arg.lit (str "-o"), Arg.lit (fn ++ str "_%04d.jpg"),
         Arg.lit (str "--width"), Arg.lit (res_width rd.resolution),
         Arg.lit (str "--height"), Arg.lit (res_height rd.resolution)]] := by
  simp [capture_timelapse, h]

/-- Claim C8, witness: 60 s at 2 s/frame on preset `"2"` becomes
`-t 60000 --timelapse 2000 -o tl_%04d.jpg`. -/
theorem C8_witness :
    (capture_timelapse micUnknown (str "2") 2 60 (str "tl")).events =
      [Event.runSync
        [Arg.lit (str "rpicam-still"),
         Arg.lit (str "-t"), Arg.lit (str "60000"),
         Arg.lit (str "--timelapse"), Arg.lit (str "2000"),
         Arg.lit (str "-o"), Arg.lit (str "tl_%04d.jpg"),
         Arg.lit (str "--width"), Arg.lit (str "2028"),
         Arg.lit (str "--height"), Arg.lit (str "1080")]] := by
  have h := C8_timelapse_command micUnknown (str "2")
    ⟨str "2028x1080", mkRat 5003 100, str "16:9"⟩ 2 60 (str "tl") (by decide)
  rw [h]; decide

/-- Claim C9. On a merge-requiring (`'Raspberry Pi 4'`) model, after the
synchronous video capture the merge tool is spawned with exactly
`-o <output.mkv> --timecodes 0:<timestampFilePath> <input>` (where the
output path is the input path with `".h264"` replaced by `".mkv"`); it is
the final event, launched via `Popen` and never waited on, and no file
deletion ever occurs. -/
theorem C9_merge_fire_and_forget (m : Microscope) (sel : Str)
    (rd : ResDetails) (fr : Option ℚ) (dur : ℤ) (fn : Str)
    (h : valid_resolutions sel = some rd)
    (h4 : pyIn (str "Raspberry Pi 4") m.pi_model = true) :
    ∃ vidCmd,
      (record_video m sel fr dur fn).events =
        [Event.runSync vidCmd,
         Event.spawn
           [Arg.lit (str "mkvmerge"),
            Arg.lit (str "-o"),
            Arg.lit (pyReplace (fn ++ get_video_extension m) (str ".h264")
              (str ".mkv")),
            Arg.lit (str "--timecodes"),
            Arg.lit (str "0:" ++
              pathJoin m.desktop_path (str "timestamps.txt")),
            Arg.lit (fn ++ get_video_extension m)]] ∧
      (record_video m sel fr dur fn).events.any isWaitEvent = false ∧
      (record_video m sel fr dur fn).events.any isRemoveEvent = false := by
  rw [record_video_eq m sel rd fr dur fn h]
  dsimp only
  simp only [get_video_command, h4, if_true, convert_to_mkv]
  exact ⟨_, rfl, by simp [isWaitEvent], by simp [isRemoveEvent]⟩

/-- Claim C9, witness: a concrete Raspberry Pi 4 video capture neither
waits on the merge process nor deletes any file. -/
theorem C9_witness :
    (record_video mic4 (str "2") none 5 (str "cap")).events.any
      isWaitEvent = false ∧
    (record_video mic4 (str "2") none 5 (str "cap")).events.any
      isRemoveEvent = false := by
  obtain ⟨c, h1, h2, h3⟩ := C9_merge_fire_and_forget mic4 (str "2")
    ⟨str "2028x1080", mkRat 5003 100, str "16:9"⟩ none 5 (str "cap")
    (by decide) (by decide)
  exact ⟨h2, h3⟩

/-- Claim C10. For every valid selector, interval, duration and filename,
`capture_timelapse` runs the still-capture tool and then raises
`NameError` (the final `print` references the undefined name
`save_folder`): the method never completes normally. -/
theorem C10_timelapse_nameerror (m : Microscope) (sel : Str)
    (rd : ResDetails) (iv dur : ℤ) (fn : Str)
    (h : valid_resolutions sel = some rd) :
    capture_timelapse m sel iv dur fn =
      ⟨[Event.runSync
          [Arg.lit (str "rpicam-still"),
           Arg.lit (str "-t"), Arg.lit (intRepr (dur * 1000)),
           Arg.lit (str "--timelapse"), Arg.lit (intRepr (iv * 1000)),
           Arg.lit (str "-o"), Arg.lit (fn ++ str "_%04d.jpg"),
           Arg.lit (str "--width"), Arg.lit (res_width rd.resolution),
           Arg.lit (str "--height"), Arg.lit (res_height rd.resolution)]],
        some PyExc.nameError⟩ := by
  simp [capture_timelapse, h]

/-- Claim C10, witness: a concrete timelapse call ends in `NameError`. -/
theorem C10_witness :
    (capture_timelapse micUnknown (str "1") 1 3 (str "x")).exc =
      some PyExc.nameError := by
  have h := C10_timelapse_nameerror micUnknown (str "1")
    ⟨str "1332x990", mkRat 12005 100, str "4:3"⟩ 1 3 (str "x") (by decide)
  rw [h]

end Rpicam
